import Mathlib

/-!
Verification of the LFFD detection head (`DetectionHead` in
`mypackage/arch/lffd/blocks/detection.py`) and the `Padding` transform
(`transforms/pad.py`).

Modelling conventions:
* Floating point values are modelled by exact rationals (ℚ); the claims
  speak of equality within floating point tolerance, which corresponds
  to exact equality of the rational idealisation.
* A torch tensor of shape `(d0, d1, ...)` is modelled either as a nested
  `List` (when the shape itself is under scrutiny) or as a function from
  natural number indices to values, with the dimensions carried alongside.
* The external collaborators `LFFDMatcher` and `random_sample_selection`
  (their code is not part of the inspected core) are abstract parameters.
* `F.binary_cross_entropy_with_logits` is a torch library primitive; its
  elementwise loss is an abstract parameter, while its mean reduction is
  modelled explicitly (sum of elementwise losses divided by the count).
-/

/-- A box as `(xmin, ymin, xmax, ymax)`. -/
abbrev Box : Type := ℚ × ℚ × ℚ × ℚ

/-- The constructor parameters of `DetectionHead` that the verified
methods read (`rf_size`, `rf_start_offset`, `rf_stride`; the remaining
parameters only configure the convolutional submodules and the matcher). -/
structure DetectionHead where
  rf_size : ℤ
  rf_start_offset : ℤ
  rf_stride : ℤ
deriving DecidableEq

/-- Pointwise maximum of two rationals (kernel-computable). -/
def maxQ (a b : ℚ) : ℚ := if a ≤ b then b else a

/-- Pointwise minimum of two rationals (kernel-computable). -/
def minQ (a b : ℚ) : ℚ := if a ≤ b then a else b

/-- `torch.clamp(x, lo, hi) = min (max x lo) hi`. -/
def clampQ (x lo hi : ℚ) : ℚ := minQ (maxQ x lo) hi

/-- The grid computed by `DetectionHead.gen_rf_anchors`
(detection.py lines 78-115) on the domain where its `torch.arange`
calls succeed: `torch.arange(n)` is the empty tensor for `n = 0` and
`0, ..., n-1` for `n > 0`, which is `List.range n.toNat` for `0 ≤ n`.
For a negative `n` the real `torch.arange(n)` raises instead of
producing anything; that error path is carried by
`DetectionHead.gen_rf_anchors_run` below, which validates the sizes the
way `torch.arange` does and yields this grid otherwise, so this total
function is consulted only at nonnegative sizes, where `Int.toNat`
agrees with the arange output.
The meshgrid gives `x = col`, `y = row` at cell `(row, col)`; the stacked
pair is scaled by `rf_stride`, shifted by `rf_start_offset`, repeated to
`(x, y, x, y)`, then `rf_size/2` is subtracted from the first two entries
and added to the last two.  `clip` clamps x coordinates into
`[0, fmapw*rf_stride]` and y coordinates into `[0, fmaph*rf_stride]`. -/
def DetectionHead.gen_rf_anchors (head : DetectionHead) (fmaph fmapw : ℤ)
    (clip : Bool) : List (List Box) :=
  (List.range fmaph.toNat).map fun (row : ℕ) =>
    (List.range fmapw.toNat).map fun (col : ℕ) =>
      let x : ℚ := (col : ℚ) * (head.rf_stride : ℚ) + (head.rf_start_offset : ℚ)
      let y : ℚ := (row : ℚ) * (head.rf_stride : ℚ) + (head.rf_start_offset : ℚ)
      let b : Box := (x - (head.rf_size : ℚ) / 2, y - (head.rf_size : ℚ) / 2,
                      x + (head.rf_size : ℚ) / 2, y + (head.rf_size : ℚ) / 2)
      if clip then
        (clampQ b.1 0 ((fmapw : ℚ) * (head.rf_stride : ℚ)),
         clampQ b.2.1 0 ((fmaph : ℚ) * (head.rf_stride : ℚ)),
         clampQ b.2.2.1 0 ((fmapw : ℚ) * (head.rf_stride : ℚ)),
         clampQ b.2.2.2 0 ((fmaph : ℚ) * (head.rf_stride : ℚ)))
      else b

/-- `torch.arange(n)` with the default step 1: the values `0, ..., n-1`
for `n ≥ 0` (empty for `n = 0`); a negative end raises
`RuntimeError: upper bound and larger bound inconsistent with step sign`. -/
def torchArange (n : ℤ) : Except String (List ℕ) :=
  if n < 0 then
    Except.error "upper bound and larger bound inconsistent with step sign"
  else
    Except.ok (List.range n.toNat)

/-- `DetectionHead.gen_rf_anchors` including the failure behaviour of
its two `torch.arange` calls (detection.py lines 95-98): if either size
is negative the call raises; otherwise it returns the anchor grid,
which on this nonnegative domain is exactly
`DetectionHead.gen_rf_anchors`. -/
def DetectionHead.gen_rf_anchors_run (head : DetectionHead) (fmaph fmapw : ℤ)
    (clip : Bool) : Except String (List (List Box)) := do
  let _ ← torchArange fmaph
  let _ ← torchArange fmapw
  pure (head.gen_rf_anchors fmaph fmapw clip)

/-- Closed form of the unclipped anchor at a valid cell `(r, c)`. -/
lemma DetectionHead.gen_rf_anchors_get (head : DetectionHead)
    (fmaph fmapw : ℤ) (r c : ℕ)
    (hr : r < fmaph.toNat) (hc : c < fmapw.toNat) :
    ((head.gen_rf_anchors fmaph fmapw false)[r]!)[c]! =
      ((c : ℚ) * (head.rf_stride : ℚ) + (head.rf_start_offset : ℚ) - (head.rf_size : ℚ) / 2,
       (r : ℚ) * (head.rf_stride : ℚ) + (head.rf_start_offset : ℚ) - (head.rf_size : ℚ) / 2,
       (c : ℚ) * (head.rf_stride : ℚ) + (head.rf_start_offset : ℚ) + (head.rf_size : ℚ) / 2,
       (r : ℚ) * (head.rf_stride : ℚ) + (head.rf_start_offset : ℚ) + (head.rf_size : ℚ) / 2) := by
  unfold DetectionHead.gen_rf_anchors
  rw [getElem!_pos _ r (by simpa using hr)]
  rw [List.getElem_map, List.getElem_range]
  rw [getElem!_pos _ c (by simpa using hc)]
  rw [List.getElem_map, List.getElem_range]
  simp

/-- `DetectionHead.apply_bbox_regression` (detection.py lines 46-76).
The regression logits tensor `(bs, fh, fw, 4)` is the function
`reg_logits` of indices `(batch, row, col, channel)`; `fh` and `fw` are
the middle dimensions of its shape.  `pred_boxes` starts as a clone of
the logits, channels 0..3 are overwritten with the decode, then x and y
coordinates are clamped. -/
def DetectionHead.apply_bbox_regression (head : DetectionHead) (fh fw : ℕ)
    (reg_logits : ℕ → ℕ → ℕ → ℕ → ℚ) : ℕ → ℕ → ℕ → ℕ → ℚ :=
  let rf_anchors := head.gen_rf_anchors fh fw false
  let rf_normalizer : ℚ := (head.rf_size : ℚ) / 2
  fun i r c k =>
    let a : Box := (rf_anchors[r]!)[c]!
    let ccx : ℚ := (a.1 + a.2.2.1) / 2
    let ccy : ℚ := (a.2.1 + a.2.2.2) / 2
    if k = 0 then clampQ (ccx - rf_normalizer * reg_logits i r c 0) 0 ((fw : ℚ) * (head.rf_stride : ℚ))
    else if k = 1 then clampQ (ccy - rf_normalizer * reg_logits i r c 1) 0 ((fh : ℚ) * (head.rf_stride : ℚ))
    else if k = 2 then clampQ (ccx - rf_normalizer * reg_logits i r c 2) 0 ((fw : ℚ) * (head.rf_stride : ℚ))
    else if k = 3 then clampQ (ccy - rf_normalizer * reg_logits i r c 3) 0 ((fh : ℚ) * (head.rf_stride : ℚ))
    else reg_logits i r c k

/-- Center x/y of a box `(xmin, ymin, xmax, ymax)` as the decoder computes
it: `(anchors[..., :2] + anchors[..., 2:]) / 2`. -/
def boxCenterX (b : Box) : ℚ := (b.1 + b.2.2.1) / 2

def boxCenterY (b : Box) : ℚ := (b.2.1 + b.2.2.2) / 2

/-- C3: at every valid cell `(r, c)` of a positive-sized feature map,
`gen_rf_anchors` yields the anchor
`(cx - rf_size/2, cy - rf_size/2, cx + rf_size/2, cy + rf_size/2)` with
`cx = c*rf_stride + rf_start_offset` and `cy = r*rf_stride + rf_start_offset`;
hence each anchor has width and height `rf_size`, centers of adjacent
cells along a row or column differ by exactly `rf_stride`, and two calls
with identical arguments produce identical anchors. -/
theorem gen_rf_anchors_closed_form (head : DetectionHead) (fmaph fmapw : ℤ)
    (hh : 0 < fmaph) (hw : 0 < fmapw) (r c : ℕ)
    (hr : (r : ℤ) < fmaph) (hc : (c : ℤ) < fmapw) :
    (((head.gen_rf_anchors fmaph fmapw false)[r]!)[c]! =
      ((c : ℚ) * (head.rf_stride : ℚ) + (head.rf_start_offset : ℚ) - (head.rf_size : ℚ) / 2,
       (r : ℚ) * (head.rf_stride : ℚ) + (head.rf_start_offset : ℚ) - (head.rf_size : ℚ) / 2,
       (c : ℚ) * (head.rf_stride : ℚ) + (head.rf_start_offset : ℚ) + (head.rf_size : ℚ) / 2,
       (r : ℚ) * (head.rf_stride : ℚ) + (head.rf_start_offset : ℚ) + (head.rf_size : ℚ) / 2))
    ∧ ((((head.gen_rf_anchors fmaph fmapw false)[r]!)[c]!).2.2.1
        - (((head.gen_rf_anchors fmaph fmapw false)[r]!)[c]!).1 = (head.rf_size : ℚ))
    ∧ ((((head.gen_rf_anchors fmaph fmapw false)[r]!)[c]!).2.2.2
        - (((head.gen_rf_anchors fmaph fmapw false)[r]!)[c]!).2.1 = (head.rf_size : ℚ))
    ∧ (((c + 1 : ℕ) : ℤ) < fmapw →
        boxCenterX (((head.gen_rf_anchors fmaph fmapw false)[r]!)[c + 1]!)
          - boxCenterX (((head.gen_rf_anchors fmaph fmapw false)[r]!)[c]!)
          = (head.rf_stride : ℚ))
    ∧ (((r + 1 : ℕ) : ℤ) < fmaph →
        boxCenterY (((head.gen_rf_anchors fmaph fmapw false)[r + 1]!)[c]!)
          - boxCenterY (((head.gen_rf_anchors fmaph fmapw false)[r]!)[c]!)
          = (head.rf_stride : ℚ))
    ∧ (∀ clip : Bool,
        head.gen_rf_anchors fmaph fmapw clip = head.gen_rf_anchors fmaph fmapw clip) := by
  have hr' : r < fmaph.toNat := by omega
  have hc' : c < fmapw.toNat := by omega
  refine ⟨head.gen_rf_anchors_get fmaph fmapw r c hr' hc', ?_, ?_, ?_, ?_, fun _ => rfl⟩
  · rw [head.gen_rf_anchors_get fmaph fmapw r c hr' hc']; ring
  · rw [head.gen_rf_anchors_get fmaph fmapw r c hr' hc']; ring
  · intro hc1
    rw [head.gen_rf_anchors_get fmaph fmapw r c hr' hc',
        head.gen_rf_anchors_get fmaph fmapw r (c + 1) hr' (by omega)]
    unfold boxCenterX
    push_cast
    ring
  · intro hr1
    rw [head.gen_rf_anchors_get fmaph fmapw r c hr' hc',
        head.gen_rf_anchors_get fmaph fmapw (r + 1) c (by omega) hc']
    unfold boxCenterY
    push_cast
    ring

theorem gen_rf_anchors_closed_form_witness :
    ((0 : ℤ) < 2 ∧ (0 : ℤ) < 3 ∧ ((1 : ℕ) : ℤ) < 2 ∧ ((2 : ℕ) : ℤ) < 3) ∧
    ((((DetectionHead.mk 20 10 8).gen_rf_anchors 2 3 false)[(1 : ℕ)]!)[(2 : ℕ)]! =
      (((2 : ℕ) : ℚ) * ((8 : ℤ) : ℚ) + ((10 : ℤ) : ℚ) - ((20 : ℤ) : ℚ) / 2,
       ((1 : ℕ) : ℚ) * ((8 : ℤ) : ℚ) + ((10 : ℤ) : ℚ) - ((20 : ℤ) : ℚ) / 2,
       ((2 : ℕ) : ℚ) * ((8 : ℤ) : ℚ) + ((10 : ℤ) : ℚ) + ((20 : ℤ) : ℚ) / 2,
       ((1 : ℕ) : ℚ) * ((8 : ℤ) : ℚ) + ((10 : ℤ) : ℚ) + ((20 : ℤ) : ℚ) / 2)) :=
  ⟨⟨by decide, by decide, by decide, by decide⟩,
    (gen_rf_anchors_closed_form (DetectionHead.mk 20 10 8) 2 3 (by decide) (by decide)
      1 2 (by decide) (by decide)).1⟩

/-- C9 counterexample: at the non-positive feature map height `-3`
(width `5`), `gen_rf_anchors` does NOT return an empty anchor grid
without failing: the first `torch.arange` raises, so the call ends in
the error `upper bound and larger bound inconsistent with step sign`
and in particular does not return the empty grid. -/
theorem gen_rf_anchors_neg_raises :
    ((DetectionHead.mk 20 10 8).gen_rf_anchors_run (-3) 5 false =
      Except.error "upper bound and larger bound inconsistent with step sign")
    ∧ ((DetectionHead.mk 20 10 8).gen_rf_anchors_run (-3) 5 false ≠
      Except.ok []) := by
  constructor
  · rfl
  · intro hcontra
    exact Except.noConfusion hcontra

/-- C9 amended: a feature map height or width equal to zero (the other
being nonnegative) yields an empty anchor grid — the call returns
normally and the flattened grid has no anchors; a negative feature map
height or width instead makes the call fail with the RuntimeError
raised by `torch.arange`. -/
theorem gen_rf_anchors_empty_or_raises (head : DetectionHead)
    (fmaph fmapw : ℤ) (clip : Bool) :
    ((0 ≤ fmaph ∧ 0 ≤ fmapw ∧ (fmaph = 0 ∨ fmapw = 0)) →
      head.gen_rf_anchors_run fmaph fmapw clip =
        Except.ok (head.gen_rf_anchors fmaph fmapw clip)
      ∧ (head.gen_rf_anchors fmaph fmapw clip).flatten = [])
    ∧ ((fmaph < 0 ∨ fmapw < 0) →
      head.gen_rf_anchors_run fmaph fmapw clip =
        Except.error "upper bound and larger bound inconsistent with step sign") := by
  constructor
  · rintro ⟨hh, hw, hzero⟩
    constructor
    · unfold DetectionHead.gen_rf_anchors_run torchArange
      rw [if_neg (by omega), if_neg (by omega)]
      rfl
    · rcases hzero with h0 | h0
      · have ht : fmaph.toNat = 0 := by omega
        simp [DetectionHead.gen_rf_anchors, ht]
      · have ht : fmapw.toNat = 0 := by omega
        simp [DetectionHead.gen_rf_anchors, ht, List.flatten_eq_nil_iff]
  · intro hneg
    unfold DetectionHead.gen_rf_anchors_run torchArange
    rcases hneg with h0 | h0
    · rw [if_pos (by omega)]
      rfl
    · by_cases hh : fmaph < 0
      · rw [if_pos (by omega)]
        rfl
      · rw [if_neg (by omega), if_pos (by omega)]
        rfl

theorem gen_rf_anchors_empty_or_raises_witness :
    (((0 : ℤ) ≤ 0 ∧ (0 : ℤ) ≤ 5 ∧ ((0 : ℤ) = 0 ∨ (5 : ℤ) = 0)) ∧
      ((DetectionHead.mk 20 10 8).gen_rf_anchors_run 0 5 false =
        Except.ok ((DetectionHead.mk 20 10 8).gen_rf_anchors 0 5 false)
      ∧ ((DetectionHead.mk 20 10 8).gen_rf_anchors 0 5 false).flatten = []))
    ∧ (((-3 : ℤ) < 0 ∨ (5 : ℤ) < 0) ∧
      ((DetectionHead.mk 20 10 8).gen_rf_anchors_run (-3) 5 false =
        Except.error "upper bound and larger bound inconsistent with step sign")) :=
  ⟨⟨⟨by decide, by decide, Or.inl (by decide)⟩,
    (gen_rf_anchors_empty_or_raises (DetectionHead.mk 20 10 8) 0 5 false).1
      ⟨by decide, by decide, Or.inl (by decide)⟩⟩,
   ⟨Or.inl (by decide),
    (gen_rf_anchors_empty_or_raises (DetectionHead.mk 20 10 8) (-3) 5 false).2
      (Or.inl (by decide))⟩⟩

/-- C1 counterexample: with `rf_size = 20`, `rf_start_offset = 10`,
`rf_stride = 8` on a 1x1 feature map, decoding the all-zero regression
output at cell `(0,0)` does NOT give that cell's RF anchor: the decode
subtracts the scaled logits from the anchor CENTER, so a zero vector
yields the (clamped) degenerate center box, not the anchor box. -/
theorem apply_bbox_regression_zero_ne_anchor :
    ¬ (((DetectionHead.mk 20 10 8).apply_bbox_regression 1 1 (fun _ _ _ _ => 0) 0 0 0 0,
        (DetectionHead.mk 20 10 8).apply_bbox_regression 1 1 (fun _ _ _ _ => 0) 0 0 0 1,
        (DetectionHead.mk 20 10 8).apply_bbox_regression 1 1 (fun _ _ _ _ => 0) 0 0 0 2,
        (DetectionHead.mk 20 10 8).apply_bbox_regression 1 1 (fun _ _ _ _ => 0) 0 0 0 3) =
      (((DetectionHead.mk 20 10 8).gen_rf_anchors 1 1 false)[(0 : ℕ)]!)[(0 : ℕ)]!) := by
  have hget := (DetectionHead.mk 20 10 8).gen_rf_anchors_get ((1 : ℕ) : ℤ) ((1 : ℕ) : ℤ)
    0 0 (by norm_num) (by norm_num)
  have hget2 := (DetectionHead.mk 20 10 8).gen_rf_anchors_get (1 : ℤ) (1 : ℤ)
    0 0 (by norm_num) (by norm_num)
  unfold DetectionHead.apply_bbox_regression
  rw [hget]
  norm_num [clampQ, minQ, maxQ, Prod.ext_iff]
  rw [hget2]
  norm_num

/-- C1 amended: decoding the all-zero regression output at a valid cell
yields the degenerate box at the RF anchor center of that cell,
`(cx, cy, cx, cy)`, with x coordinates clamped into `[0, fw*rf_stride]`
and y coordinates clamped into `[0, fh*rf_stride]` — not the anchor box
itself. -/
theorem apply_bbox_regression_zero_eq_center (head : DetectionHead) (fh fw : ℕ)
    (i r c : ℕ) (hr : r < fh) (hc : c < fw) :
    (head.apply_bbox_regression fh fw (fun _ _ _ _ => 0) i r c 0 =
      clampQ ((c : ℚ) * (head.rf_stride : ℚ) + (head.rf_start_offset : ℚ)) 0
        ((fw : ℚ) * (head.rf_stride : ℚ)))
    ∧ (head.apply_bbox_regression fh fw (fun _ _ _ _ => 0) i r c 1 =
      clampQ ((r : ℚ) * (head.rf_stride : ℚ) + (head.rf_start_offset : ℚ)) 0
        ((fh : ℚ) * (head.rf_stride : ℚ)))
    ∧ (head.apply_bbox_regression fh fw (fun _ _ _ _ => 0) i r c 2 =
      clampQ ((c : ℚ) * (head.rf_stride : ℚ) + (head.rf_start_offset : ℚ)) 0
        ((fw : ℚ) * (head.rf_stride : ℚ)))
    ∧ (head.apply_bbox_regression fh fw (fun _ _ _ _ => 0) i r c 3 =
      clampQ ((r : ℚ) * (head.rf_stride : ℚ) + (head.rf_start_offset : ℚ)) 0
        ((fh : ℚ) * (head.rf_stride : ℚ))) := by
  have hget := head.gen_rf_anchors_get fh fw r c (by omega) (by omega)
  unfold DetectionHead.apply_bbox_regression
  rw [hget]
  norm_num

theorem apply_bbox_regression_zero_eq_center_witness :
    ((0 : ℕ) < 2 ∧ (1 : ℕ) < 3) ∧
    ((DetectionHead.mk 20 10 8).apply_bbox_regression 2 3 (fun _ _ _ _ => 0) 0 0 1 0 =
      clampQ (((1 : ℕ) : ℚ) * ((8 : ℤ) : ℚ) + ((10 : ℤ) : ℚ)) 0
        (((3 : ℕ) : ℚ) * ((8 : ℤ) : ℚ))) :=
  ⟨⟨by decide, by decide⟩,
    (apply_bbox_regression_zero_eq_center (DetectionHead.mk 20 10 8) 2 3 0 0 1
      (by decide) (by decide)).1⟩

/-- C2: at every valid cell `(r, c)`, the decoder output is
`(ccx - n*r0, ccy - n*r1, ccx - n*r2, ccy - n*r3)` — subtraction on all
four channels — where `(ccx, ccy)` is the RF anchor center of the cell
(equal to `(c*rf_stride + rf_start_offset, r*rf_stride + rf_start_offset)`)
and `n = rf_size/2`, with the x coordinates clamped into
`[0, fw*rf_stride]` and the y coordinates clamped into `[0, fh*rf_stride]`. -/
theorem apply_bbox_regression_formula (head : DetectionHead) (fh fw : ℕ)
    (reg_logits : ℕ → ℕ → ℕ → ℕ → ℚ) (i r c : ℕ) (hr : r < fh) (hc : c < fw) :
    boxCenterX (((head.gen_rf_anchors fh fw false)[r]!)[c]!) =
        (c : ℚ) * (head.rf_stride : ℚ) + (head.rf_start_offset : ℚ)
    ∧ boxCenterY (((head.gen_rf_anchors fh fw false)[r]!)[c]!) =
        (r : ℚ) * (head.rf_stride : ℚ) + (head.rf_start_offset : ℚ)
    ∧ head.apply_bbox_regression fh fw reg_logits i r c 0 =
        clampQ (boxCenterX (((head.gen_rf_anchors fh fw false)[r]!)[c]!)
            - (head.rf_size : ℚ) / 2 * reg_logits i r c 0) 0
          ((fw : ℚ) * (head.rf_stride : ℚ))
    ∧ head.apply_bbox_regression fh fw reg_logits i r c 1 =
        clampQ (boxCenterY (((head.gen_rf_anchors fh fw false)[r]!)[c]!)
            - (head.rf_size : ℚ) / 2 * reg_logits i r c 1) 0
          ((fh : ℚ) * (head.rf_stride : ℚ))
    ∧ head.apply_bbox_regression fh fw reg_logits i r c 2 =
        clampQ (boxCenterX (((head.gen_rf_anchors fh fw false)[r]!)[c]!)
            - (head.rf_size : ℚ) / 2 * reg_logits i r c 2) 0
          ((fw : ℚ) * (head.rf_stride : ℚ))
    ∧ head.apply_bbox_regression fh fw reg_logits i r c 3 =
        clampQ (boxCenterY (((head.gen_rf_anchors fh fw false)[r]!)[c]!)
            - (head.rf_size : ℚ) / 2 * reg_logits i r c 3) 0
          ((fh : ℚ) * (head.rf_stride : ℚ)) := by
  have hget := head.gen_rf_anchors_get fh fw r c (by omega) (by omega)
  refine ⟨?_, ?_, rfl, rfl, rfl, rfl⟩
  · rw [hget]; unfold boxCenterX; ring
  · rw [hget]; unfold boxCenterY; ring

theorem apply_bbox_regression_formula_witness :
    ((1 : ℕ) < 2 ∧ (2 : ℕ) < 3) ∧
    boxCenterX ((((DetectionHead.mk 20 10 8).gen_rf_anchors 2 3 false)[(1 : ℕ)]!)[(2 : ℕ)]!) =
      ((2 : ℕ) : ℚ) * ((8 : ℤ) : ℚ) + ((10 : ℤ) : ℚ) :=
  ⟨⟨by decide, by decide⟩,
    (apply_bbox_regression_formula (DetectionHead.mk 20 10 8) 2 3 (fun _ _ _ _ => 1)
      0 1 2 (by decide) (by decide)).1⟩

/-- The per-image output contract of the external `LFFDMatcher`
collaborator (spec section 6): a classification mask, regression targets
and an ignore mask aligned to the `fh x fw` grid.  Grids are functions of
`(row, col)` (and a channel for the regression part). -/
structure MatcherOut where
  cls_mask : ℕ → ℕ → Bool
  reg_targets : ℕ → ℕ → ℕ → ℚ
  ignore_mask : ℕ → ℕ → Bool

/-- One image slice of the tensors produced by
`DetectionHead.build_targets`: `t_cls[i]`, `t_regs[i]`, `ignore[i]`. -/
structure Targets where
  t_cls : ℕ → ℕ → ℚ
  t_regs : ℕ → ℕ → ℕ → ℚ
  ignore : ℕ → ℕ → Bool

instance : Inhabited Targets := ⟨⟨fun _ _ => 0, fun _ _ _ => 0, fun _ _ => false⟩⟩

/-- `DetectionHead.build_targets` (detection.py lines 117-153).
`t_cls` is initialised to zeros and the cells of the classification mask
are set to 1 (`t_cls[i, cls_mask] = 1`); the regression targets and the
ignore mask returned by the matcher are copied unchanged.  The abstract
parameter `matcher` stands for the external call
`self.matcher(rf_anchors, gt_boxes[i], self.rf_size/2)`, whose fixed
arguments (the anchors, recomputed once per batch, and the normalizer)
are folded into the function; `α` is the type of one image's
ground-truth boxes. -/
def build_targets {α : Type} (matcher : α → MatcherOut) (gt_boxes : List α) :
    List Targets :=
  gt_boxes.map fun gt =>
    let m := matcher gt
    { t_cls := fun r c => if m.cls_mask r c then 1 else 0
      t_regs := m.reg_targets
      ignore := m.ignore_mask }

/-- The flattened cell enumeration of a `(bs, fh, fw)` tensor, in row
major (C) order — the order in which torch flattens with `.view(-1)`. -/
def cellList (bs fh fw : ℕ) : List (ℕ × ℕ × ℕ) :=
  (List.range bs).flatMap fun i =>
    (List.range fh).flatMap fun r =>
      (List.range fw).map fun c => (i, r, c)

/-- Flat index of cell `(i, r, c)` in the `.view(-1)` flattening of a
`(bs, fh, fw)` tensor. -/
def flatIdx (fh fw : ℕ) (x : ℕ × ℕ × ℕ) : ℕ :=
  x.1 * (fh * fw) + x.2.1 * fw + x.2.2

/-- A 0-dimensional torch tensor: its value together with its
`requires_grad` flag (whether it is connected to the autograd graph). -/
structure TorchScalar where
  val : ℚ
  requires_grad : Bool
deriving DecidableEq

/-- Mean reduction of `F.binary_cross_entropy_with_logits` over a list
of gathered `(logit, target)` pairs; `e` is the elementwise loss (an
abstract stand-in for the transcendental torch primitive). -/
def bce_mean (e : ℚ → ℚ → ℚ) (pairs : List (ℚ × ℚ)) : ℚ :=
  (pairs.map fun p => e p.1 p.2).sum / (pairs.length : ℚ)

/-- `F.mse_loss` with mean reduction over a list of gathered
`(input, target)` pairs. -/
def mse_loss (pairs : List (ℚ × ℚ)) : ℚ :=
  (pairs.map fun p => (p.1 - p.2) ^ 2).sum / (pairs.length : ℚ)

/-- `target_cls[i, r, c]` read out of the `build_targets` output. -/
def targetCls (ts : List Targets) (x : ℕ × ℕ × ℕ) : ℚ :=
  (ts[x.1]!).t_cls x.2.1 x.2.2

/-- `target_regs[i, r, c, k]` read out of the `build_targets` output. -/
def targetRegs (ts : List Targets) (x : ℕ × ℕ × ℕ) (k : ℕ) : ℚ :=
  (ts[x.1]!).t_regs x.2.1 x.2.2 k

/-- `ignore[i, r, c]` read out of the `build_targets` output. -/
def ignoreAt (ts : List Targets) (x : ℕ × ℕ × ℕ) : Bool :=
  (ts[x.1]!).ignore x.2.1 x.2.2

/-- `pos_mask = (target_cls == 1) & (~ignore)` (detection.py line 186). -/
def posMask (ts : List Targets) (x : ℕ × ℕ × ℕ) : Bool :=
  decide (targetCls ts x = 1) && !(ignoreAt ts x)

/-- `rpos_mask = target_cls == 1` (detection.py line 187): the ignore
mask is NOT applied. -/
def rposMask (ts : List Targets) (x : ℕ × ℕ × ℕ) : Bool :=
  decide (targetCls ts x = 1)

/-- `neg_mask = (target_cls == 0) & (~ignore)` (detection.py line 188). -/
def negMask (ts : List Targets) (x : ℕ × ℕ × ℕ) : Bool :=
  decide (targetCls ts x = 0) && !(ignoreAt ts x)

/-- `positives = pos_mask.sum()` (detection.py line 189). -/
def positivesCount (bs fh fw : ℕ) (ts : List Targets) : ℕ :=
  ((cellList bs fh fw).filter (posMask ts)).length

/-- `neg_mask.sum()` before sampling: the number of negative candidate
cells. -/
def negCandidateCount (bs fh fw : ℕ) (ts : List Targets) : ℕ :=
  ((cellList bs fh fw).filter (negMask ts)).length

/-- The number of negatives requested from the sampler
(detection.py lines 190-193): `batch_size` when there are no positives,
otherwise `min(neg_mask.sum(), 5 * positives)` (5 being the fixed
negative-to-positive bound). -/
def requestedNegatives (bs fh fw : ℕ) (ts : List Targets) : ℕ :=
  if positivesCount bs fh fw ts ≤ 0 then bs
  else min (negCandidateCount bs fh fw ts) (5 * positivesCount bs fh fw ts)

/-- `ss, = torch.where(neg_mask.view(-1))`: the ascending flat indices of
the negative candidate cells. -/
def negCandidateIdx (bs fh fw : ℕ) (ts : List Targets) : List ℕ :=
  ((cellList bs fh fw).filter (negMask ts)).map (flatIdx fh fw)

/-- `DetectionHead.compute_loss` (detection.py lines 164-214).
Inputs: `cls_logits` is the `(bs, fh, fw, 1)` classification logits
tensor after the permute (the head is used with a single logit channel,
folded into the value); `reg_logits` is the permuted `(bs, fh, fw, 4)`
regression logits tensor; `gt_boxes` is the per-image ground truth, with
`batch_size = len(gt_boxes)`.  Abstract collaborators: `matcher` as in
`build_targets`, `e` the elementwise binary cross entropy with logits,
`rss` the external `random_sample_selection(population, count)`
primitive, and `rg` says whether the logit tensors carry gradient
(propagated by the torch loss primitives into the returned scalars; the
zero regression loss is the literal
`torch.tensor(0, requires_grad=True)`).
Steps modelled one-to-one: mask construction, the negative request
count, resampling of `neg_mask` from the sampled flat indices, the
classification loss over `pos_mask | neg_mask`, and the regression loss
over `rpos_mask` with the empty-positive fallback. -/
def compute_loss {α : Type} (fh fw : ℕ) (matcher : α → MatcherOut)
    (cls_logits : ℕ → ℕ → ℕ → ℚ) (reg_logits : ℕ → ℕ → ℕ → ℕ → ℚ)
    (gt_boxes : List α) (e : ℚ → ℚ → ℚ) (rss : List ℕ → ℕ → List ℕ)
    (rg : Bool) : TorchScalar × TorchScalar :=
  let batch_size := gt_boxes.length
  let ts := build_targets matcher gt_boxes
  let cells := cellList batch_size fh fw
  let selections := rss (negCandidateIdx batch_size fh fw ts)
    (requestedNegatives batch_size fh fw ts)
  let sampledNeg : ℕ × ℕ × ℕ → Bool := fun x => decide (flatIdx fh fw x ∈ selections)
  let cls_pairs := (cells.filter fun x => posMask ts x || sampledNeg x).map
    fun x => (cls_logits x.1 x.2.1 x.2.2, targetCls ts x)
  let cls_loss : TorchScalar := ⟨bce_mean e cls_pairs, rg⟩
  let reg_loss : TorchScalar :=
    if ((cells.filter (rposMask ts)).length ≤ 0) then
      ⟨0, true⟩
    else
      ⟨mse_loss (((cells.filter (rposMask ts)).map fun x =>
          (List.range 4).map fun k =>
            (reg_logits x.1 x.2.1 x.2.2 k, targetRegs ts x k)).flatten), rg⟩
  (cls_loss, reg_loss)

/-- C8: `build_targets` gives, for every image `i` of the batch, a
classification target grid that is 1 exactly on the cells of the
classification mask returned by the matcher and 0 everywhere else, and
copies the regression output and the ignore output of the matcher
unchanged into the image's slices. -/
theorem build_targets_spec {α : Type} (matcher : α → MatcherOut)
    (gt_boxes : List α) (i : ℕ) (h : i < gt_boxes.length) (r c k : ℕ) :
    (((build_targets matcher gt_boxes)[i]!).t_cls r c
        = if (matcher gt_boxes[i]).cls_mask r c then 1 else 0)
    ∧ ((matcher gt_boxes[i]).cls_mask r c = true →
        ((build_targets matcher gt_boxes)[i]!).t_cls r c = 1)
    ∧ ((matcher gt_boxes[i]).cls_mask r c = false →
        ((build_targets matcher gt_boxes)[i]!).t_cls r c = 0)
    ∧ (((build_targets matcher gt_boxes)[i]!).t_regs r c k
        = (matcher gt_boxes[i]).reg_targets r c k)
    ∧ (((build_targets matcher gt_boxes)[i]!).ignore r c
        = (matcher gt_boxes[i]).ignore_mask r c) := by
  have hb : (build_targets matcher gt_boxes)[i]! =
      { t_cls := fun r c => if (matcher gt_boxes[i]).cls_mask r c then 1 else 0
        t_regs := (matcher gt_boxes[i]).reg_targets
        ignore := (matcher gt_boxes[i]).ignore_mask } := by
    unfold build_targets
    rw [getElem!_pos _ i (by simpa using h), List.getElem_map]
  rw [hb]
  refine ⟨rfl, ?_, ?_, rfl, rfl⟩
  · intro hm; simp [hm]
  · intro hm; simp [hm]

theorem build_targets_spec_witness :
    (0 < [()].length) ∧
    (((build_targets
        (fun _ : Unit => MatcherOut.mk
          (fun r c => decide (r = 0 ∧ c = 0)) (fun _ _ _ => 3) (fun _ _ => true))
        [()])[(0 : ℕ)]!).t_cls 0 0
      = if (MatcherOut.mk (fun r c => decide (r = 0 ∧ c = 0)) (fun _ _ _ => (3 : ℚ))
          (fun _ _ => true)).cls_mask 0 0 then 1 else 0) :=
  ⟨by decide,
    (build_targets_spec
      (fun _ : Unit => MatcherOut.mk
        (fun r c => decide (r = 0 ∧ c = 0)) (fun _ _ _ => 3) (fun _ _ => true))
      [()] 0 (by decide) 0 0 0).1⟩

/-- C4: the number of negatives requested from the sampler in
`compute_loss` is `batch_size` exactly when the count of positive cells
(classification target 1 and not ignored) is zero, and
`min(count of negative candidates, 5 * positive count)` when the
positive count is strictly positive. -/
theorem requested_negatives_policy {α : Type} (fh fw : ℕ)
    (matcher : α → MatcherOut) (gt_boxes : List α) :
    (positivesCount gt_boxes.length fh fw (build_targets matcher gt_boxes) = 0 →
      requestedNegatives gt_boxes.length fh fw (build_targets matcher gt_boxes)
        = gt_boxes.length)
    ∧ (0 < positivesCount gt_boxes.length fh fw (build_targets matcher gt_boxes) →
      requestedNegatives gt_boxes.length fh fw (build_targets matcher gt_boxes)
        = min (negCandidateCount gt_boxes.length fh fw (build_targets matcher gt_boxes))
            (5 * positivesCount gt_boxes.length fh fw (build_targets matcher gt_boxes))) := by
  constructor
  · intro h0
    unfold requestedNegatives
    simp [h0]
  · intro hpos
    unfold requestedNegatives
    rw [if_neg (by omega)]

/-- A concrete matcher marking no cell positive and none ignored (for
instantiating theorems with hypotheses). -/
def allNegMatcher : Unit → MatcherOut :=
  fun _ => MatcherOut.mk (fun _ _ => false) (fun _ _ _ => 0) (fun _ _ => false)

/-- A concrete matcher marking every cell positive, with constant
regression targets and ignore everywhere (to exercise the rule that
ignored positives still take part in the regression loss). -/
def allPosIgnMatcher : Unit → MatcherOut :=
  fun _ => MatcherOut.mk (fun _ _ => true) (fun _ _ _ => 2) (fun _ _ => true)

theorem requested_negatives_policy_witness :
    (positivesCount 1 1 1 (build_targets allNegMatcher [()]) = 0) ∧
    requestedNegatives 1 1 1 (build_targets allNegMatcher [()]) = 1 := by
  have h0 : positivesCount 1 1 1 (build_targets allNegMatcher [()]) = 0 := by
    simp [positivesCount, cellList, posMask, targetCls, ignoreAt, build_targets,
      allNegMatcher, List.filter]
  exact ⟨h0, (requested_negatives_policy 1 1 allNegMatcher [()]).1 h0⟩

/-- C6: when no cell of the batch has classification target 1, the
regression loss returned by `compute_loss` is exactly the zero scalar
with `requires_grad = true` (the literal
`torch.tensor(0, requires_grad=True)`), and the call returns normally
(the model of `compute_loss` is a total function). -/
theorem reg_loss_zero_when_no_positives {α : Type} (fh fw : ℕ)
    (matcher : α → MatcherOut) (cls_logits : ℕ → ℕ → ℕ → ℚ)
    (reg_logits : ℕ → ℕ → ℕ → ℕ → ℚ) (gt_boxes : List α)
    (e : ℚ → ℚ → ℚ) (rss : List ℕ → ℕ → List ℕ) (rg : Bool)
    (h : ((cellList gt_boxes.length fh fw).filter
        (rposMask (build_targets matcher gt_boxes))).length = 0) :
    (compute_loss fh fw matcher cls_logits reg_logits gt_boxes e rss rg).2 =
      TorchScalar.mk 0 true := by
  unfold compute_loss
  simp [h]

theorem reg_loss_zero_when_no_positives_witness :
    (((cellList [()].length 1 1).filter
        (rposMask (build_targets allNegMatcher [()]))).length = 0) ∧
    (compute_loss 1 1 allNegMatcher (fun _ _ _ => 0) (fun _ _ _ _ => 0) [()]
        (fun a b => a * b) (fun l k => l.take k) false).2 = TorchScalar.mk 0 true := by
  have h0 : ((cellList [()].length 1 1).filter
      (rposMask (build_targets allNegMatcher [()]))).length = 0 := by
    simp [cellList, rposMask, targetCls, build_targets, allNegMatcher, List.filter]
  exact ⟨h0, reg_loss_zero_when_no_positives 1 1 allNegMatcher (fun _ _ _ => 0)
    (fun _ _ _ _ => 0) [()] (fun a b => a * b) (fun l k => l.take k) false h0⟩

/-- The cells retained for the classification loss: the union of the
positive mask and the sampled negative mask (the boolean-mask gather
`cls_logits[pos_mask | neg_mask]` enumerates exactly these cells, in
flatten order). -/
def unionCells (bs fh fw : ℕ) (ts : List Targets) (selections : List ℕ) :
    List (ℕ × ℕ × ℕ) :=
  (cellList bs fh fw).filter fun x =>
    posMask ts x || decide (flatIdx fh fw x ∈ selections)

/-- C7: the classification loss returned by `compute_loss` is the mean
of the elementwise binary cross entropy with logits over exactly the
cells in the union of the positive mask and the sampled negative mask,
with the class target restricted to the same union; cells outside the
union do not occur in the sum (and hence contribute neither loss nor
gradient). -/
theorem cls_loss_over_union {α : Type} (fh fw : ℕ) (matcher : α → MatcherOut)
    (cls_logits : ℕ → ℕ → ℕ → ℚ) (reg_logits : ℕ → ℕ → ℕ → ℕ → ℚ)
    (gt_boxes : List α) (e : ℚ → ℚ → ℚ) (rss : List ℕ → ℕ → List ℕ)
    (rg : Bool) :
    (compute_loss fh fw matcher cls_logits reg_logits gt_boxes e rss rg).1 =
      TorchScalar.mk
        (((unionCells gt_boxes.length fh fw (build_targets matcher gt_boxes)
              (rss (negCandidateIdx gt_boxes.length fh fw (build_targets matcher gt_boxes))
                (requestedNegatives gt_boxes.length fh fw (build_targets matcher gt_boxes)))).map
            fun x => e (cls_logits x.1 x.2.1 x.2.2)
              (targetCls (build_targets matcher gt_boxes) x)).sum
          / ((unionCells gt_boxes.length fh fw (build_targets matcher gt_boxes)
              (rss (negCandidateIdx gt_boxes.length fh fw (build_targets matcher gt_boxes))
                (requestedNegatives gt_boxes.length fh fw
                  (build_targets matcher gt_boxes)))).length : ℚ))
        rg := by
  unfold compute_loss bce_mean unionCells
  dsimp only
  rw [List.map_map, List.length_map]
  rfl

/-- The mask gather `reg_logits[rpos_mask]` yields one row of 4 channels
per retained cell, and `F.mse_loss` averages over all `4 * K` scalar
entries: the mean square error equals the per-cell sums of squared
channel differences divided by `4 * K`. -/
lemma mse_loss_quads {β : Type} (l : List β) (f g : β → ℕ → ℚ) :
    mse_loss ((l.map fun x => (List.range 4).map fun k => (f x k, g x k)).flatten) =
      (l.map fun x => ((List.range 4).map fun k => (f x k - g x k) ^ 2).sum).sum
        / (4 * (l.length : ℚ)) := by
  unfold mse_loss
  rw [List.map_flatten, List.sum_flatten, List.length_flatten]
  simp only [List.map_map, Function.comp, List.length_map, List.length_range]
  congr 1
  have hlen : (List.length ∘ fun x => List.map (fun k => (f x k, g x k)) (List.range 4))
      = fun _ : β => 4 := by
    funext x; simp
  rw [hlen, List.map_const', List.sum_replicate, smul_eq_mul]
  push_cast
  ring

/-- C5: when at least one cell has classification target 1, the
regression loss returned by `compute_loss` is the mean square error
between regression logits and regression targets over exactly the cells
whose classification target is 1 — the `rpos_mask`, to which the ignore
mask is NOT applied, so a positive cell flagged ignored still
participates (the mask is `target_cls == 1` alone, first conjunct). -/
theorem reg_loss_mse_over_all_positives {α : Type} (fh fw : ℕ)
    (matcher : α → MatcherOut) (cls_logits : ℕ → ℕ → ℕ → ℚ)
    (reg_logits : ℕ → ℕ → ℕ → ℕ → ℚ) (gt_boxes : List α)
    (e : ℚ → ℚ → ℚ) (rss : List ℕ → ℕ → List ℕ) (rg : Bool)
    (h : 0 < ((cellList gt_boxes.length fh fw).filter
        (rposMask (build_targets matcher gt_boxes))).length) :
    (∀ x : ℕ × ℕ × ℕ, targetCls (build_targets matcher gt_boxes) x = 1 →
        rposMask (build_targets matcher gt_boxes) x = true)
    ∧ (compute_loss fh fw matcher cls_logits reg_logits gt_boxes e rss rg).2 =
      TorchScalar.mk
        ((((cellList gt_boxes.length fh fw).filter
              (rposMask (build_targets matcher gt_boxes))).map
            fun x => ((List.range 4).map fun k =>
              (reg_logits x.1 x.2.1 x.2.2 k
                - targetRegs (build_targets matcher gt_boxes) x k) ^ 2).sum).sum
          / (4 * ((((cellList gt_boxes.length fh fw).filter
              (rposMask (build_targets matcher gt_boxes))).length : ℚ))))
        rg := by
  constructor
  · intro x hx
    unfold rposMask
    simp [hx]
  · unfold compute_loss
    dsimp only
    rw [if_neg (by omega)]
    rw [mse_loss_quads ((cellList gt_boxes.length fh fw).filter
        (rposMask (build_targets matcher gt_boxes)))
      (fun x k => reg_logits x.1 x.2.1 x.2.2 k)
      (fun x k => targetRegs (build_targets matcher gt_boxes) x k)]

theorem reg_loss_mse_over_all_positives_witness :
    (0 < ((cellList [()].length 1 1).filter
        (rposMask (build_targets allPosIgnMatcher [()]))).length) ∧
    (compute_loss 1 1 allPosIgnMatcher (fun _ _ _ => 0) (fun _ _ _ _ => 1) [()]
        (fun a b => a * b) (fun l k => l.take k) true).2 =
      TorchScalar.mk
        ((((cellList [()].length 1 1).filter
              (rposMask (build_targets allPosIgnMatcher [()]))).map
            fun x => ((List.range 4).map fun k =>
              ((1 : ℚ) - targetRegs (build_targets allPosIgnMatcher [()]) x k) ^ 2).sum).sum
          / (4 * ((((cellList [()].length 1 1).filter
              (rposMask (build_targets allPosIgnMatcher [()]))).length : ℚ))))
        true := by
  have h : 0 < ((cellList [()].length 1 1).filter
      (rposMask (build_targets allPosIgnMatcher [()]))).length := by
    simp [cellList, rposMask, targetCls, build_targets, allPosIgnMatcher, List.filter]
  exact ⟨h, (reg_loss_mse_over_all_positives 1 1 allPosIgnMatcher (fun _ _ _ => 0)
    (fun _ _ _ _ => 1) [()] (fun a b => a * b) (fun l k => l.take k) true h).2⟩

/-- `Padding.__call__` (pad.py lines 10-31).  The image of shape
`(h, w, c)` is a list of `h` rows; each row entry of type `γ` is the
`c`-channel pixel (row slices are copied whole, so the channel axis can
stay abstract).  `w` is the second component of the numpy shape of
`img`.  `target_size` is `(tw, th)`.  Pads are computed with python
floor division and modulo; for `w ≤ tw` and `h ≤ th` these coincide with
the natural number `/` and `%` used here, and the `w > tw` / `h > th`
guards that reset the pads to zero are kept as in the source.  The new
image is `pad_value` everywhere except the assigned slice
`nimg[pad_up:th-pad_down, pad_left:tw-pad_right] = img`; boxes are
shifted by `pad_left` in x and `pad_up` in y (the `len(boxes.shape)==2
and boxes.shape[0]>0` guard is the identity on the list model for the
empty list as well). -/
def Padding.call {γ : Type} [Inhabited γ] (target_size : ℕ × ℕ) (pad_value : γ)
    (h w : ℕ) (img : List (List γ)) (boxes : List Box) :
    List (List γ) × List Box :=
  let tw := target_size.1
  let th := target_size.2
  let pad_left := (tw - w) / 2 + (tw - w) % 2
  let pad_right := (tw - w) / 2
  let pads_lr := if w > tw then ((0 : ℕ), (0 : ℕ)) else (pad_left, pad_right)
  let pad_up := (th - h) / 2 + (th - h) % 2
  let pad_down := (th - h) / 2
  let pads_ud := if h > th then ((0 : ℕ), (0 : ℕ)) else (pad_up, pad_down)
  let nimg := (List.range th).map fun (r : ℕ) =>
    (List.range tw).map fun (cc : ℕ) =>
      if pads_ud.1 ≤ r ∧ r < th - pads_ud.2 ∧ pads_lr.1 ≤ cc ∧ cc < tw - pads_lr.2 then
        (img[r - pads_ud.1]!)[cc - pads_lr.1]!
      else pad_value
  let nboxes := boxes.map fun b =>
    (b.1 + (pads_lr.1 : ℚ), b.2.1 + (pads_ud.1 : ℚ),
     b.2.2.1 + (pads_lr.1 : ℚ), b.2.2.2 + (pads_ud.1 : ℚ))
  (nimg, nboxes)

/-- C10: for an image of shape `(h, w, c)` with `h ≤ th` and `w ≤ tw`,
`Padding.__call__` returns an image of shape `(th, tw, c)` whose
sub-rectangle at offset `(pad_up, pad_left)` holds the original pixels,
with the padding split so that an odd leftover pixel goes to the
top/left side; every ground truth box is translated by exactly
`(pad_left, pad_up)`, so box widths and heights are unchanged. -/
theorem padding_call_spec {γ : Type} [Inhabited γ] (tw th : ℕ) (pad_value : γ)
    (h w : ℕ) (img : List (List γ)) (boxes : List Box)
    (hh : h ≤ th) (hw : w ≤ tw) :
    let pl := (tw - w) / 2 + (tw - w) % 2
    let pu := (th - h) / 2 + (th - h) % 2
    ((Padding.call (tw, th) pad_value h w img boxes).1.length = th)
    ∧ (∀ row ∈ (Padding.call (tw, th) pad_value h w img boxes).1, row.length = tw)
    ∧ (pl + (tw - w) / 2 = tw - w ∧ (tw - w) / 2 ≤ pl ∧ pl ≤ (tw - w) / 2 + 1)
    ∧ (pu + (th - h) / 2 = th - h ∧ (th - h) / 2 ≤ pu ∧ pu ≤ (th - h) / 2 + 1)
    ∧ (∀ i j : ℕ, i < h → j < w →
        (((Padding.call (tw, th) pad_value h w img boxes).1)[pu + i]!)[pl + j]!
          = (img[i]!)[j]!)
    ∧ ((Padding.call (tw, th) pad_value h w img boxes).2 =
        boxes.map fun b => (b.1 + (pl : ℚ), b.2.1 + (pu : ℚ),
          b.2.2.1 + (pl : ℚ), b.2.2.2 + (pu : ℚ)))
    ∧ (∀ b : Box, ((b.2.2.1 + (pl : ℚ)) - (b.1 + (pl : ℚ)) = b.2.2.1 - b.1)
        ∧ ((b.2.2.2 + (pu : ℚ)) - (b.2.1 + (pu : ℚ)) = b.2.2.2 - b.2.1)) := by
  intro pl pu
  have hcall : Padding.call (tw, th) pad_value h w img boxes =
      ((List.range th).map fun (r : ℕ) => (List.range tw).map fun (cc : ℕ) =>
          if pu ≤ r ∧ r < th - (th - h) / 2 ∧ pl ≤ cc ∧ cc < tw - (tw - w) / 2 then
            (img[r - pu]!)[cc - pl]!
          else pad_value,
       boxes.map fun b => (b.1 + (pl : ℚ), b.2.1 + (pu : ℚ),
          b.2.2.1 + (pl : ℚ), b.2.2.2 + (pu : ℚ))) := by
    unfold Padding.call
    dsimp only
    rw [if_neg (show ¬ w > tw by omega), if_neg (show ¬ h > th by omega)]
  rw [hcall]
  refine ⟨by simp, ?_, ⟨by omega, by omega, by omega⟩, ⟨by omega, by omega, by omega⟩,
    ?_, rfl, ?_⟩
  · intro row hrow
    rcases List.mem_map.mp hrow with ⟨r, hr, hrow'⟩
    rw [← hrow']
    simp
  · intro i j hi hj
    rw [getElem!_pos _ (pu + i) (by simp; omega), List.getElem_map, List.getElem_range]
    rw [getElem!_pos _ (pl + j) (by simp; omega), List.getElem_map, List.getElem_range]
    rw [if_pos (by omega)]
    congr 1
    · congr 1
      omega
    · omega
  · intro b
    constructor <;> ring

theorem padding_call_spec_witness :
    ((2 : ℕ) ≤ 4 ∧ (2 : ℕ) ≤ 4 ∧ (1 : ℕ) < 2 ∧ (0 : ℕ) < 2) ∧
    (((Padding.call (4, 4) (0 : ℚ) 2 2 [[10, 20], [30, 40]]
        [((0 : ℚ), (0 : ℚ), (1 : ℚ), (1 : ℚ))]).1)[(2 : ℕ)]!)[(1 : ℕ)]!
      = (([[(10 : ℚ), 20], [30, 40]])[(1 : ℕ)]!)[(0 : ℕ)]! :=
  ⟨⟨by decide, by decide, by decide, by decide⟩,
    (padding_call_spec 4 4 (0 : ℚ) 2 2 [[10, 20], [30, 40]]
      [((0 : ℚ), (0 : ℚ), (1 : ℚ), (1 : ℚ))] (by decide) (by decide)).2.2.2.2.1
      1 0 (by decide) (by decide)⟩
